import Mathlib

/-!
# Incident orchestrator

A shallow embedding of the incident workflow
(`internal/workflows/incident_workflow.go`), of its data model
(`internal/models/types.go`) and of the signal commands of the starter
(`cmd/starter/main.go`), followed by theorems about them.

The workflow is a single cooperative loop around `selector.Select`.  The
embedding has two layers.

* The loop itself: the local variables of `IncidentWorkflow` are kept in a
  record (`Workflow`) and the loop body is folded over the list of branches
  that `Select` takes, in the order in which it takes them (`Event`,
  `eventLoop`, `run`).
* The loop inside the substrate (`Runtime`, `exec`): signals are buffered on
  their channels when they arrive, timers complete some time after they were
  created, and each `Select` takes the first ready branch in the order in
  which the branches were added to the selector (add-alert, ack, resolve,
  timer).  The workflow may be held up for any length of time between two
  steps, as it is while a notification activity runs.  Every configuration
  this layer reaches is one that the first layer reaches (`exec_handled`).

Everything the substrate decides is an input: the outcome of every
`SendNotification` activity, when signals arrive, when a timer future
completes and whether by firing or with an error, and whether
`SetQueryHandler` succeeds.  Logger calls have no effect on any value and are
left out.
-/

namespace Incident

/-! ## Data model (`internal/models/types.go`) -/

/-- IncidentStatus: the three status constants `StatusOpen` ("OPEN"),
`StatusAcked` ("ACKED") and `StatusResolved` ("RESOLVED"); the workflow
assigns no other value. -/
inductive IncidentStatus where
  | StatusOpen
  | StatusAcked
  | StatusResolved
deriving DecidableEq, Repr

/-- IncidentState: the durable state of an incident workflow.  The optional
`AckedBy` and `ResolvedBy` are Go strings, empty until set. -/
structure IncidentState where
  Service : String
  Status : IncidentStatus
  Alerts : List String
  EscalationLevel : Int
  AckedBy : String
  ResolvedBy : String
deriving DecidableEq, Repr

/-- AddAlertSignal: payload of the `add-alert` signal. -/
structure AddAlertSignal where
  AlertID : String
deriving DecidableEq, Repr

/-- AckSignal: payload of the `ack` signal. -/
structure AckSignal where
  Responder : String
deriving DecidableEq, Repr

/-- ResolveSignal: payload of the `resolve` signal. -/
structure ResolveSignal where
  Responder : String
deriving DecidableEq, Repr

/-- NotifyInput: input of the `SendNotification` activity. -/
structure NotifyInput where
  Service : String
  Message : String
  Level : Int
  AlertID : String
  Responder : String
deriving DecidableEq, Repr

/-! ## Constants of `incident_workflow.go` -/

def SignalAddAlert : String := "add-alert"

def SignalAck : String := "ack"

def SignalResolve : String := "resolve"

/-- Go `int` on a 64-bit platform: the value of an arithmetic result after
two's-complement wrap-around. -/
def wrapInt (x : Int) : Int :=
  (x + 9223372036854775808) % 18446744073709551616 - 9223372036854775808

/-! ## The workflow -/

/-- Event: a branch that `selector.Select` can take.  The three signals carry
their decoded payload.  A timer future is ready either because the timer
fired (`f.Get` returns nil) or because it was cancelled (`f.Get` returns an
error). -/
inductive Event where
  | addAlert (signal : AddAlertSignal)
  | ack (signal : AckSignal)
  | resolve (signal : ResolveSignal)
  | timerFired
  | timerCanceled
deriving DecidableEq, Repr

/-- Workflow: the local variables of `IncidentWorkflow` together with what
the substrate records about it.
* `service`, `state`, `needNewTimer`, `timerFuture` are the Go variables
  (`timerFuture` is `none` for nil, else the number of the timer it holds);
* `timersStarted` counts the calls of `workflow.NewTimer`;
* `activities` lists the `SendNotification` calls in order, each with
  whether it failed. -/
structure Workflow where
  service : String
  state : IncidentState
  needNewTimer : Bool
  timerFuture : Option Nat
  timersStarted : Nat
  activities : List (NotifyInput × Bool)
deriving DecidableEq, Repr

/-- The call `workflow.ExecuteActivity(ctx, activities.SendNotification, input).Get(ctx, nil)`:
the call is recorded, and the substrate (`notifyFails`, indexed by the number
of the call) decides whether it returns an error. -/
def executeActivity (notifyFails : Nat → Bool) (wf : Workflow) (input : NotifyInput) :
    Workflow × Bool :=
  let failed := notifyFails wf.activities.length
  ({ wf with activities := wf.activities ++ [(input, failed)] }, failed)

/-- The state the workflow initialises (lines 31-36). -/
def initialState (service : String) : IncidentState :=
  { Service := service
    Status := IncidentStatus.StatusOpen
    Alerts := []
    EscalationLevel := 0
    AckedBy := ""
    ResolvedBy := "" }

/-- What `IncidentWorkflow` does between a successful `SetQueryHandler` and
the loop (lines 58-76): the initial notification, whose error is only logged,
then `needNewTimer := true` and a nil `timerFuture`. -/
def start (notifyFails : Nat → Bool) (service : String) : Workflow :=
  let wf : Workflow :=
    { service := service
      state := initialState service
      needNewTimer := true
      timerFuture := none
      timersStarted := 0
      activities := [] }
  (executeActivity notifyFails wf
    { Service := service
      Message := "Incident opened for service: " ++ service
      Level := wf.state.EscalationLevel
      AlertID := ""
      Responder := "" }).1

/-- Top of the loop body (lines 80-84): create the escalation timer if needed
and the status is OPEN. -/
def armTimer (wf : Workflow) : Workflow :=
  if wf.state.Status = IncidentStatus.StatusOpen ∧ wf.needNewTimer = true then
    { wf with
      timerFuture := some wf.timersStarted
      timersStarted := wf.timersStarted + 1
      needNewTimer := false }
  else wf

/-- The condition under which the timer callback is added to the selector
(line 144). -/
def timerRegistered (wf : Workflow) : Bool :=
  decide (wf.state.Status = IncidentStatus.StatusOpen) && wf.timerFuture.isSome

/-- The AddAlert callback (lines 89-103). -/
def onAddAlert (notifyFails : Nat → Bool) (wf : Workflow) (signal : AddAlertSignal) : Workflow :=
  let wf1 := { wf with state := { wf.state with Alerts := wf.state.Alerts ++ [signal.AlertID] } }
  (executeActivity notifyFails wf1
    { Service := wf1.service
      Message := "New alert added to incident: " ++ signal.AlertID
      Level := wf1.state.EscalationLevel
      AlertID := signal.AlertID
      Responder := "" }).1

/-- The Ack callback (lines 106-123). -/
def onAck (notifyFails : Nat → Bool) (wf : Workflow) (signal : AckSignal) : Workflow :=
  if wf.state.Status = IncidentStatus.StatusOpen then
    let wf1 := { wf with state :=
      { wf.state with Status := IncidentStatus.StatusAcked, AckedBy := signal.Responder } }
    (executeActivity notifyFails wf1
      { Service := wf1.service
        Message := "Incident acknowledged by " ++ signal.Responder
        Level := wf1.state.EscalationLevel
        AlertID := ""
        Responder := signal.Responder }).1
  else wf

/-- The Resolve callback (lines 126-141). -/
def onResolve (notifyFails : Nat → Bool) (wf : Workflow) (signal : ResolveSignal) : Workflow :=
  let wf1 := { wf with state :=
    { wf.state with Status := IncidentStatus.StatusResolved, ResolvedBy := signal.Responder } }
  (executeActivity notifyFails wf1
    { Service := wf1.service
      Message := "Incident resolved by " ++ signal.Responder
      Level := wf1.state.EscalationLevel
      AlertID := ""
      Responder := signal.Responder }).1

/-- The timer callback (lines 145-169); `getErr` says whether `f.Get` returns
an error.  `%v` of the 30 s timeout prints as `30s`. -/
def onTimer (notifyFails : Nat → Bool) (wf : Workflow) (getErr : Bool) : Workflow :=
  if wf.state.Status ≠ IncidentStatus.StatusOpen then wf
  else if getErr then wf
  else
    let wf1 := { wf with state :=
      { wf.state with EscalationLevel := wrapInt (wf.state.EscalationLevel + 1) } }
    let wf2 := (executeActivity notifyFails wf1
      { Service := wf1.service
        Message := "ESCALATION: Incident not acknowledged after 30s, escalating to level "
          ++ toString wf1.state.EscalationLevel
        Level := wf1.state.EscalationLevel
        AlertID := ""
        Responder := "" }).1
    { wf2 with needNewTimer := true }

/-- The timer branch: the callback runs only if it is on the selector.  When
it is not, a ready timer future does not make `Select` return and the
workflow keeps waiting with its variables unchanged. -/
def timerReady (notifyFails : Nat → Bool) (wf : Workflow) (getErr : Bool) : Workflow :=
  if timerRegistered wf = true then onTimer notifyFails wf getErr else wf

/-- The call `selector.Select(ctx)` taking the branch `ev` (lines 86-171):
exactly one callback runs. -/
def select (notifyFails : Nat → Bool) (wf : Workflow) : Event → Workflow
  | Event.addAlert signal => onAddAlert notifyFails wf signal
  | Event.ack signal => onAck notifyFails wf signal
  | Event.resolve signal => onResolve notifyFails wf signal
  | Event.timerFired => timerReady notifyFails wf false
  | Event.timerCanceled => timerReady notifyFails wf true

/-- One iteration of the loop (lines 80-171) in which `Select` takes `ev`. -/
def loopBody (notifyFails : Nat → Bool) (wf : Workflow) (ev : Event) : Workflow :=
  select notifyFails (armTimer wf) ev

/-- The main event loop (line 79): it runs while the status is not RESOLVED,
one event per iteration; nothing is taken once the loop has ended.  The
result is the configuration at the top of the loop once the events are used
up. -/
def eventLoop (notifyFails : Nat → Bool) : Workflow → List Event → Workflow
  | wf, [] => wf
  | wf, ev :: rest =>
    if wf.state.Status = IncidentStatus.StatusResolved then wf
    else eventLoop notifyFails (loopBody notifyFails wf ev) rest

/-- The configuration of a workflow started for `service` (with the query
handler registered) after `Select` has taken the events `es`. -/
def run (notifyFails : Nat → Bool) (service : String) (es : List Event) : Workflow :=
  eventLoop notifyFails (start notifyFails service) es

/-- IncidentWorkflow: what the function has returned after the events `es`,
`none` while it is still waiting in `Select`.  A returned pair is the Go
result `(*IncidentState, error)`.  `setQueryHandlerErr` is the result of
`workflow.SetQueryHandler`. -/
def IncidentWorkflow (setQueryHandlerErr : Option String) (notifyFails : Nat → Bool)
    (service : String) (es : List Event) : Option (Option IncidentState × Option String) :=
  match setQueryHandlerErr with
  | some err => some (none, some err)
  | none =>
    let wf := run notifyFails service es
    if wf.state.Status = IncidentStatus.StatusResolved then some (some wf.state, none) else none

/-! ## The workflow inside the substrate -/

/-- Action: one thing that happens to a running workflow.
* `arrive ev`: the substrate makes `ev` available: a signal is buffered on its
  channel, or the oldest outstanding timer completes, by firing
  (`timerFired`) or with an error (`timerCanceled`);
* `select`: the workflow takes its next step, the top of the loop body and
  `Select`, or `Select` alone if it was already waiting in it.

A list of actions is a schedule.  The workflow may take its step any time
after it has become possible, which covers the time it spends in an
activity.  A workflow that waits in `Select` is woken up by the first event
that arrives: in a schedule that is a `select` right after that arrival. -/
inductive Action where
  | arrive (ev : Event)
  | select
deriving DecidableEq, Repr

/-- Runtime: a workflow and what the substrate holds for it.
* `addAlertChan`, `ackChan`, `resolveChan`: the signals buffered on the three
  channels, oldest first;
* `completions`: for each timer that has completed, in the order of their
  creation, whether its future holds an error (every timer has the same
  timeout, so timers complete in the order in which they were created);
* `timerCallbacks`: how many times the timer callback has run;
* `waiting`: the workflow is blocked inside `Select`, the top of the current
  iteration having run. -/
structure Runtime where
  wf : Workflow
  addAlertChan : List AddAlertSignal
  ackChan : List AckSignal
  resolveChan : List ResolveSignal
  completions : List Bool
  timerCallbacks : Nat
  waiting : Bool
deriving DecidableEq, Repr

/-- The number of outstanding timers: created and not completed yet. -/
def outstanding (rt : Runtime) : Nat :=
  rt.wf.timersStarted - rt.completions.length

/-- Whether the future in `timerFuture` is ready, and if so whether `f.Get`
returns an error. -/
def futureReady (rt : Runtime) : Option Bool :=
  match rt.wf.timerFuture with
  | none => none
  | some id => rt.completions[id]?

/-- The substrate makes an event available.  A timer event completes the
oldest outstanding timer, if there is one. -/
def arrive (rt : Runtime) : Event → Runtime
  | Event.addAlert signal => { rt with addAlertChan := rt.addAlertChan ++ [signal] }
  | Event.ack signal => { rt with ackChan := rt.ackChan ++ [signal] }
  | Event.resolve signal => { rt with resolveChan := rt.resolveChan ++ [signal] }
  | Event.timerFired =>
    if rt.completions.length < rt.wf.timersStarted then
      { rt with completions := rt.completions ++ [false] }
    else rt
  | Event.timerCanceled =>
    if rt.completions.length < rt.wf.timersStarted then
      { rt with completions := rt.completions ++ [true] }
    else rt

/-- The branch that `Select` takes: the first ready one in the order in which
the branches were added to the selector (lines 89, 106, 126, 145), the timer
branch being there only if `timerRegistered`; `none` if no branch is ready. -/
def readyBranch (rt : Runtime) : Option Event :=
  match rt.addAlertChan with
  | signal :: _ => some (Event.addAlert signal)
  | [] =>
    match rt.ackChan with
    | signal :: _ => some (Event.ack signal)
    | [] =>
      match rt.resolveChan with
      | signal :: _ => some (Event.resolve signal)
      | [] =>
        if timerRegistered rt.wf = true then
          match futureReady rt with
          | some true => some Event.timerCanceled
          | some false => some Event.timerFired
          | none => none
        else none

/-- What taking a branch uses up: `c.Receive` removes the signal from its
channel; a timer future stays as it is and the callback is counted. -/
def received (rt : Runtime) : Event → Runtime
  | Event.addAlert _ => { rt with addAlertChan := rt.addAlertChan.tail }
  | Event.ack _ => { rt with ackChan := rt.ackChan.tail }
  | Event.resolve _ => { rt with resolveChan := rt.resolveChan.tail }
  | Event.timerFired => { rt with timerCallbacks := rt.timerCallbacks + 1 }
  | Event.timerCanceled => { rt with timerCallbacks := rt.timerCallbacks + 1 }

/-- The top of the loop body (lines 80-84), which has already run if the
workflow is waiting in `Select`. -/
def loopTop (rt : Runtime) : Runtime :=
  if rt.waiting = true then rt else { rt with wf := armTimer rt.wf }

/-- The next step of the workflow.  Nothing happens once the loop has ended
(line 79).  Otherwise the top of the loop body runs, unless the workflow was
already waiting in `Select`, and `Select` takes the ready branch; with no
ready branch the workflow waits. -/
def selectStep (notifyFails : Nat → Bool) (rt : Runtime) : Runtime :=
  if rt.wf.state.Status = IncidentStatus.StatusResolved then rt
  else
    match readyBranch (loopTop rt) with
    | none => { loopTop rt with waiting := true }
    | some ev =>
      { received (loopTop rt) ev with
        wf := select notifyFails (loopTop rt).wf ev
        waiting := false }

/-- One action. -/
def step (notifyFails : Nat → Bool) (rt : Runtime) : Action → Runtime
  | Action.arrive ev => arrive rt ev
  | Action.select => selectStep notifyFails rt

/-- A list of actions, from a given runtime. -/
def execFrom (notifyFails : Nat → Bool) : Runtime → List Action → Runtime
  | rt, [] => rt
  | rt, a :: rest => execFrom notifyFails (step notifyFails rt a) rest

/-- A workflow started for `service`, about to enter the loop: nothing
buffered, no timer. -/
def boot (notifyFails : Nat → Bool) (service : String) : Runtime :=
  { wf := start notifyFails service
    addAlertChan := []
    ackChan := []
    resolveChan := []
    completions := []
    timerCallbacks := 0
    waiting := false }

/-- The runtime of a workflow started for `service` after the actions
`sched`. -/
def exec (notifyFails : Nat → Bool) (service : String) (sched : List Action) : Runtime :=
  execFrom notifyFails (boot notifyFails service) sched

/-- Whether the top of the loop body (lines 80-84) creates a timer. -/
def createsTimer (wf : Workflow) : Bool :=
  (armTimer wf).timersStarted == wf.timersStarted + 1

/-! ## The starter (`cmd/starter/main.go`) -/

/-- The workflow id of the incident of a service. -/
def workflowID (service : String) : String :=
  "incident-" ++ service

/-- The argument of a `SignalWorkflow` call: one of the three payloads. -/
inductive SignalArg where
  | addAlert (signal : AddAlertSignal)
  | ack (signal : AckSignal)
  | resolve (signal : ResolveSignal)
deriving DecidableEq, Repr

/-- A call `c.SignalWorkflow(ctx, workflowID, runID, signalName, arg)`. -/
structure SignalCall where
  workflowID : String
  runID : String
  signalName : String
  arg : SignalArg
deriving DecidableEq, Repr

/-- What one command of the starter did: the `SignalWorkflow` calls it made,
the message of `log.Fatalln` if it ended that way (the process then exits
with status 1), and the lines of `log.Printf`. -/
structure Cli where
  signalled : List SignalCall
  fatal : Option String
  logged : List String
deriving DecidableEq, Repr

/-- The function `sendAddAlert` (lines 105-117); `signalWorkflow` is the
client, giving the error of a call if any. -/
def sendAddAlert (signalWorkflow : SignalCall → Option String) (service alertID : String) : Cli :=
  if service = "" ∨ alertID = "" then
    { signalled := []
      fatal := some "Service name and alert ID are required for alert command"
      logged := [] }
  else
    let call : SignalCall :=
      { workflowID := workflowID service
        runID := ""
        signalName := SignalAddAlert
        arg := SignalArg.addAlert { AlertID := alertID } }
    match signalWorkflow call with
    | some err =>
      { signalled := [call], fatal := some ("Unable to send AddAlert signal: " ++ err), logged := [] }
    | none =>
      { signalled := [call]
        fatal := none
        logged := ["Sent AddAlert signal: alertID=" ++ alertID ++ " to incident-" ++ service] }

/-- The function `sendAck` (lines 119-131). -/
def sendAck (signalWorkflow : SignalCall → Option String) (service responder : String) : Cli :=
  if service = "" ∨ responder = "" then
    { signalled := []
      fatal := some "Service name and responder are required for ack command"
      logged := [] }
  else
    let call : SignalCall :=
      { workflowID := workflowID service
        runID := ""
        signalName := SignalAck
        arg := SignalArg.ack { Responder := responder } }
    match signalWorkflow call with
    | some err =>
      { signalled := [call], fatal := some ("Unable to send Ack signal: " ++ err), logged := [] }
    | none =>
      { signalled := [call]
        fatal := none
        logged := ["Sent Ack signal: responder=" ++ responder ++ " to incident-" ++ service] }

/-- The function `sendResolve` (lines 133-145). -/
def sendResolve (signalWorkflow : SignalCall → Option String) (service responder : String) : Cli :=
  if service = "" ∨ responder = "" then
    { signalled := []
      fatal := some "Service name and responder are required for resolve command"
      logged := [] }
  else
    let call : SignalCall :=
      { workflowID := workflowID service
        runID := ""
        signalName := SignalResolve
        arg := SignalArg.resolve { Responder := responder } }
    match signalWorkflow call with
    | some err =>
      { signalled := [call], fatal := some ("Unable to send Resolve signal: " ++ err), logged := [] }
    | none =>
      { signalled := [call]
        fatal := none
        logged := ["Sent Resolve signal: responder=" ++ responder ++ " to incident-" ++ service] }

/-- The JSON field `alert_id` of a payload, empty when the payload has none. -/
def SignalArg.alertID : SignalArg → String
  | SignalArg.addAlert signal => signal.AlertID
  | SignalArg.ack _ => ""
  | SignalArg.resolve _ => ""

/-- The JSON field `responder` of a payload, empty when the payload has none. -/
def SignalArg.responder : SignalArg → String
  | SignalArg.addAlert _ => ""
  | SignalArg.ack signal => signal.Responder
  | SignalArg.resolve signal => signal.Responder

/-- How the substrate hands a signal call to the workflow of `service`: a
call addressed to its workflow id arrives on the channel of its signal name,
where `c.Receive` decodes the payload into the struct of that channel; a call
for another workflow or on a name without a channel wakes nothing up. -/
def deliver (service : String) (call : SignalCall) : Option Event :=
  if call.workflowID = workflowID service then
    if call.signalName = SignalAddAlert then
      some (Event.addAlert { AlertID := call.arg.alertID })
    else if call.signalName = SignalAck then
      some (Event.ack { Responder := call.arg.responder })
    else if call.signalName = SignalResolve then
      some (Event.resolve { Responder := call.arg.responder })
    else none
  else none

/-! ## Auxiliary definitions for the statements and proofs -/

/-- The incident state after one loop iteration woken up by an event, for a
workflow that holds a timer future whenever the status is OPEN. -/
def nextState (st : IncidentState) : Event → IncidentState
  | Event.addAlert signal => { st with Alerts := st.Alerts ++ [signal.AlertID] }
  | Event.ack signal =>
    if st.Status = IncidentStatus.StatusOpen then
      { st with Status := IncidentStatus.StatusAcked, AckedBy := signal.Responder }
    else st
  | Event.resolve signal =>
    { st with Status := IncidentStatus.StatusResolved, ResolvedBy := signal.Responder }
  | Event.timerFired =>
    if st.Status = IncidentStatus.StatusOpen then
      { st with EscalationLevel := wrapInt (st.EscalationLevel + 1) }
    else st
  | Event.timerCanceled => st

/-- The incident state after the event loop, folding `nextState`. -/
def stateLoop : IncidentState → List Event → IncidentState
  | st, [] => st
  | st, ev :: rest =>
    if st.Status = IncidentStatus.StatusResolved then st
    else stateLoop (nextState st ev) rest

/-- While the status is OPEN, a timer future exists whenever no new timer is
needed. -/
def TimerHeld (wf : Workflow) : Prop :=
  wf.state.Status = IncidentStatus.StatusOpen → wf.needNewTimer = false →
    wf.timerFuture.isSome = true

/-- The alert ids of the AddAlert signals that arrive in a list of actions,
in order of arrival. -/
def arrivedAlertIDs : List Action → List String
  | [] => []
  | Action.arrive (Event.addAlert signal) :: rest => signal.AlertID :: arrivedAlertIDs rest
  | _ :: rest => arrivedAlertIDs rest

/-- Whether an event leaves an OPEN incident OPEN: it is neither an Ack nor a
Resolve signal. -/
def keepsOpen : Event → Bool
  | Event.ack _ => false
  | Event.resolve _ => false
  | _ => true

/-- The status moves handled by the loop never go backward: the five moves of
an event handled by the loop. -/
def forwardMoves : List (IncidentStatus × IncidentStatus) :=
  [ (IncidentStatus.StatusOpen, IncidentStatus.StatusOpen)
  , (IncidentStatus.StatusOpen, IncidentStatus.StatusAcked)
  , (IncidentStatus.StatusOpen, IncidentStatus.StatusResolved)
  , (IncidentStatus.StatusAcked, IncidentStatus.StatusAcked)
  , (IncidentStatus.StatusAcked, IncidentStatus.StatusResolved) ]

/-- An event that the starter can cause, or a timer event: the delivery of a
signal call made by `sendAddAlert`, `sendAck` or `sendResolve`. -/
def FromStarter (service : String) (ev : Event) : Prop :=
  ev = Event.timerFired ∨ ev = Event.timerCanceled ∨
  ∃ (signalWorkflow : SignalCall → Option String) (svc arg : String) (call : SignalCall),
    (call ∈ (sendAddAlert signalWorkflow svc arg).signalled ∨
      call ∈ (sendAck signalWorkflow svc arg).signalled ∨
      call ∈ (sendResolve signalWorkflow svc arg).signalled) ∧
    deliver service call = some ev

/-- The timer bookkeeping of every runtime that `exec` reaches: at most one
timer is outstanding, none when a new timer is needed; the timer future holds
the timer created last; a workflow that waits in `Select` has had the top of
its iteration run. -/
def TimerInv (rt : Runtime) : Prop :=
  rt.completions.length ≤ rt.wf.timersStarted ∧
  rt.wf.timersStarted ≤ rt.completions.length + 1 ∧
  (rt.wf.needNewTimer = true → rt.wf.timersStarted = rt.completions.length) ∧
  (∀ id, rt.wf.timerFuture = some id → id + 1 = rt.wf.timersStarted) ∧
  (rt.waiting = true →
    ¬ (rt.wf.state.Status = IncidentStatus.StatusOpen ∧ rt.wf.needNewTimer = true))

/-- The bookkeeping of the timer callback while every timer completes by
firing: the callback has run for every timer but possibly the last, and a
new timer is needed exactly when it has run for the last one too. -/
def FireInv (rt : Runtime) : Prop :=
  (∀ b ∈ rt.completions, b = false) ∧
  rt.timerCallbacks ≤ rt.completions.length ∧
  rt.wf.timersStarted ≤ rt.timerCallbacks + 1 ∧
  (rt.wf.needNewTimer = true ↔ rt.wf.timersStarted = rt.timerCallbacks)

/-- The workflow of a runtime is a configuration of the loop of the first
layer: the one after the branches taken so far, with the top of the next
iteration run if the workflow waits in `Select`. -/
def Handled (nf : Nat → Bool) (service : String) (rt : Runtime) : Prop :=
  ∃ es : List Event,
    rt.wf = if rt.waiting = true then armTimer (run nf service es) else run nf service es

/-- What holds after the top of the loop body: no new timer is needed while
the status is OPEN. -/
def TopDone (rt : Runtime) : Prop :=
  ¬ (rt.wf.state.Status = IncidentStatus.StatusOpen ∧ rt.wf.needNewTimer = true)

/-- Whether the required field of a signal event is present: a non-empty
alert id for AddAlert, a non-empty responder for Ack and Resolve. -/
def hasRequiredField : Event → Bool
  | Event.addAlert signal => signal.AlertID != ""
  | Event.ack signal => signal.Responder != ""
  | Event.resolve signal => signal.Responder != ""
  | _ => true

/-- No empty alert id and no empty recorded responder in an incident state. -/
def NoEmptyField (st : IncidentState) : Prop :=
  "" ∉ st.Alerts ∧
  (st.Status = IncidentStatus.StatusAcked → st.AckedBy ≠ "") ∧
  (st.Status = IncidentStatus.StatusResolved → st.ResolvedBy ≠ "")

/-! ## The event loop: basic facts -/

theorem eventLoop_resolved (nf : Nat → Bool) (wf : Workflow) (es : List Event)
    (h : wf.state.Status = IncidentStatus.StatusResolved) : eventLoop nf wf es = wf := by
  cases es <;> simp [eventLoop, h]

theorem eventLoop_append (nf : Nat → Bool) (wf : Workflow) (as bs : List Event) :
    eventLoop nf wf (as ++ bs) = eventLoop nf (eventLoop nf wf as) bs := by
  induction as generalizing wf with
  | nil => simp [eventLoop]
  | cons a as ih =>
    by_cases h : wf.state.Status = IncidentStatus.StatusResolved
    · simp [eventLoop, h, eventLoop_resolved]
    · simp [eventLoop, h, ih]

theorem run_append (nf : Nat → Bool) (service : String) (as bs : List Event) :
    run nf service (as ++ bs) = eventLoop nf (run nf service as) bs := by
  simp [run, eventLoop_append]

theorem eventLoop_single (nf : Nat → Bool) (wf : Workflow) (ev : Event) :
    eventLoop nf wf [ev] =
      if wf.state.Status = IncidentStatus.StatusResolved then wf else loopBody nf wf ev := by
  simp [eventLoop]

theorem stateLoop_resolved (st : IncidentState) (es : List Event)
    (h : st.Status = IncidentStatus.StatusResolved) : stateLoop st es = st := by
  cases es <;> simp [stateLoop, h]

theorem stateLoop_append (st : IncidentState) (as bs : List Event) :
    stateLoop st (as ++ bs) = stateLoop (stateLoop st as) bs := by
  induction as generalizing st with
  | nil => simp [stateLoop]
  | cons a as ih =>
    by_cases h : st.Status = IncidentStatus.StatusResolved
    · simp [stateLoop, h, stateLoop_resolved]
    · simp [stateLoop, h, ih]

theorem armTimer_state (wf : Workflow) : (armTimer wf).state = wf.state := by
  unfold armTimer; split <;> rfl

theorem armTimer_activities (wf : Workflow) : (armTimer wf).activities = wf.activities := by
  unfold armTimer; split <;> rfl

theorem armTimer_service (wf : Workflow) : (armTimer wf).service = wf.service := by
  unfold armTimer; split <;> rfl

theorem armTimer_not_open (wf : Workflow) (h : wf.state.Status ≠ IncidentStatus.StatusOpen) :
    armTimer wf = wf := by
  simp [armTimer, h]

theorem armTimer_registered (wf : Workflow) (h : TimerHeld wf)
    (ho : wf.state.Status = IncidentStatus.StatusOpen) :
    timerRegistered (armTimer wf) = true := by
  unfold armTimer TimerHeld timerRegistered at *
  split
  · simp_all
  · cases hn : wf.needNewTimer <;> simp_all

theorem loopBody_state (nf : Nat → Bool) (wf : Workflow) (ev : Event) (h : TimerHeld wf) :
    (loopBody nf wf ev).state = nextState wf.state ev := by
  cases ev with
  | addAlert s => simp [loopBody, select, onAddAlert, executeActivity, nextState, armTimer_state]
  | ack s =>
    simp only [loopBody, select, onAck, nextState, armTimer_state]
    split <;> simp [executeActivity, armTimer_state]
  | resolve s => simp [loopBody, select, onResolve, executeActivity, nextState, armTimer_state]
  | timerFired =>
    by_cases ho : wf.state.Status = IncidentStatus.StatusOpen
    · have hr := armTimer_registered wf h ho
      simp_all [loopBody, select, timerReady, onTimer, nextState, armTimer_state,
        timerRegistered, executeActivity]
    · simp [loopBody, select, timerReady, onTimer, nextState, armTimer_state,
        timerRegistered, ho]
  | timerCanceled =>
    simp only [loopBody, select, timerReady, onTimer, nextState, armTimer_state]
    split <;> simp [armTimer_state]

theorem loopBody_held (nf : Nat → Bool) (wf : Workflow) (ev : Event) (h : TimerHeld wf) :
    TimerHeld (loopBody nf wf ev) := by
  intro ho hn
  have hst := loopBody_state nf wf ev h
  have ho1 : wf.state.Status = IncidentStatus.StatusOpen := by
    rw [hst] at ho
    cases ev <;> simp [nextState] at ho
    · exact ho
    · split at ho <;> simp_all
    · split at ho <;> simp_all
    · exact ho
  have hr := armTimer_registered wf h ho1
  have hs : (armTimer wf).timerFuture.isSome = true := by
    simp [timerRegistered] at hr; exact hr.2
  cases ev with
  | addAlert s => simpa [loopBody, select, onAddAlert, executeActivity] using hs
  | ack s =>
    simp only [loopBody, select, onAck, armTimer_state]
    simp [ho1, executeActivity]; exact hs
  | resolve s => simpa [loopBody, select, onResolve, executeActivity] using hs
  | timerFired =>
    simp [loopBody, select, timerReady, onTimer, timerRegistered, armTimer_state, ho1,
      executeActivity, hs]
  | timerCanceled =>
    simp [loopBody, select, timerReady, onTimer, timerRegistered, armTimer_state, ho1, hs]

theorem eventLoop_state (nf : Nat → Bool) (wf : Workflow) (es : List Event) (h : TimerHeld wf) :
    (eventLoop nf wf es).state = stateLoop wf.state es := by
  induction es generalizing wf with
  | nil => simp [eventLoop, stateLoop]
  | cons ev es ih =>
    by_cases hr : wf.state.Status = IncidentStatus.StatusResolved
    · simp [eventLoop, stateLoop, hr]
    · simp [eventLoop, stateLoop, hr, ih _ (loopBody_held nf wf ev h), loopBody_state nf wf ev h]

theorem eventLoop_held (nf : Nat → Bool) (wf : Workflow) (es : List Event) (h : TimerHeld wf) :
    TimerHeld (eventLoop nf wf es) := by
  induction es generalizing wf with
  | nil => simpa [eventLoop] using h
  | cons ev es ih =>
    by_cases hr : wf.state.Status = IncidentStatus.StatusResolved
    · simpa [eventLoop, hr] using h
    · simpa [eventLoop, hr] using ih _ (loopBody_held nf wf ev h)

theorem start_state (nf : Nat → Bool) (service : String) :
    (start nf service).state = initialState service := by
  simp [start, executeActivity]

theorem start_held (nf : Nat → Bool) (service : String) : TimerHeld (start nf service) := by
  simp [TimerHeld, start, executeActivity]

theorem run_held (nf : Nat → Bool) (service : String) (es : List Event) :
    TimerHeld (run nf service es) :=
  eventLoop_held nf _ es (start_held nf service)

theorem run_state (nf : Nat → Bool) (service : String) (es : List Event) :
    (run nf service es).state = stateLoop (initialState service) es := by
  simp [run, eventLoop_state nf _ es (start_held nf service), start_state]

/-! ## C1, C2: the Ack and Resolve transitions -/

theorem stateLoop_ackedBy (st : IncidentState) (es : List Event)
    (h : st.Status ≠ IncidentStatus.StatusOpen) :
    (stateLoop st es).AckedBy = st.AckedBy := by
  induction es generalizing st with
  | nil => simp [stateLoop]
  | cons ev es ih =>
    by_cases hr : st.Status = IncidentStatus.StatusResolved
    · simp [stateLoop, hr]
    · simp only [stateLoop, hr, if_false]
      cases ev <;> simp [nextState, h] <;> rw [ih] <;> simp [h]

/-- C1: handling an Ack signal while the status is OPEN gives the same state
with status ACKED and `AckedBy` the responder and sends exactly one
notification; handling it while the status is not OPEN changes nothing at
all; hence in every event sequence the responder of an Ack handled while OPEN
stays in `AckedBy` whatever follows. -/
theorem C1_ack_transition (notifyFails : Nat → Bool) (wf : Workflow) (signal : AckSignal) :
    (wf.state.Status = IncidentStatus.StatusOpen →
      (eventLoop notifyFails wf [Event.ack signal]).state =
        { wf.state with Status := IncidentStatus.StatusAcked, AckedBy := signal.Responder } ∧
      (eventLoop notifyFails wf [Event.ack signal]).activities =
        wf.activities ++
          [({ Service := wf.service
              Message := "Incident acknowledged by " ++ signal.Responder
              Level := wf.state.EscalationLevel
              AlertID := ""
              Responder := signal.Responder }, notifyFails wf.activities.length)]) ∧
    (wf.state.Status ≠ IncidentStatus.StatusOpen →
      eventLoop notifyFails wf [Event.ack signal] = wf) ∧
    (∀ (service : String) (es rest : List Event),
      (run notifyFails service es).state.Status = IncidentStatus.StatusOpen →
      (run notifyFails service (es ++ Event.ack signal :: rest)).state.AckedBy =
        signal.Responder) := by
  refine ⟨?_, ?_, ?_⟩
  · intro ho
    simp [eventLoop, loopBody, select, onAck, executeActivity, armTimer_state,
      armTimer_activities, armTimer_service, ho]
  · intro hn
    by_cases hr : wf.state.Status = IncidentStatus.StatusResolved
    · simp [eventLoop, hr]
    · simp [eventLoop, hr, loopBody, select, onAck, armTimer_state, hn, armTimer_not_open]
  · intro service es rest ho
    rw [run_append, eventLoop_state _ _ _ (run_held _ _ _)]
    simp only [stateLoop, ho, nextState, if_true]
    rw [if_neg (by simp), stateLoop_ackedBy _ _ (by simp)]

/-- Scenario C of the specification, an instance of `C1_ack_transition`:
Ack by carol while OPEN, then Ack by dave. -/
theorem C1_ack_transition_witness :
    (run (fun _ => false) "db" []).state.Status = IncidentStatus.StatusOpen ∧
    (run (fun _ => false) "db"
      ([] ++ Event.ack { Responder := "carol" } :: [Event.ack { Responder := "dave" }])).state.AckedBy
      = "carol" :=
  ⟨by decide, (C1_ack_transition (fun _ => false) (start (fun _ => false) "db")
    { Responder := "carol" }).2.2 "db" [] [Event.ack { Responder := "dave" }] (by decide)⟩

/-- C2: for every state with status OPEN or ACKED and every responder,
handling a Resolve signal gives the same state with status RESOLVED and
`ResolvedBy` the responder (service, alerts, escalation level and `AckedBy`
unchanged) and sends exactly one notification; the loop condition is then
false, so nothing that follows is handled and `IncidentWorkflow` returns that
state with a nil error. -/
theorem C2_resolve_transition (notifyFails : Nat → Bool) (wf : Workflow) (signal : ResolveSignal)
    (h : wf.state.Status = IncidentStatus.StatusOpen ∨
      wf.state.Status = IncidentStatus.StatusAcked) :
    (eventLoop notifyFails wf [Event.resolve signal]).state =
      { wf.state with Status := IncidentStatus.StatusResolved, ResolvedBy := signal.Responder } ∧
    (eventLoop notifyFails wf [Event.resolve signal]).activities =
      wf.activities ++
        [({ Service := wf.service
            Message := "Incident resolved by " ++ signal.Responder
            Level := wf.state.EscalationLevel
            AlertID := ""
            Responder := signal.Responder }, notifyFails wf.activities.length)] ∧
    (∀ rest : List Event,
      eventLoop notifyFails wf (Event.resolve signal :: rest) =
        eventLoop notifyFails wf [Event.resolve signal]) ∧
    (∀ (service : String) (es rest : List Event), run notifyFails service es = wf →
      IncidentWorkflow none notifyFails service (es ++ Event.resolve signal :: rest) =
        some (some { wf.state with
          Status := IncidentStatus.StatusResolved, ResolvedBy := signal.Responder }, none)) := by
  have hr : wf.state.Status ≠ IncidentStatus.StatusResolved := by
    rcases h with h | h <;> simp [h]
  have hst : (loopBody notifyFails wf (Event.resolve signal)).state =
      { wf.state with Status := IncidentStatus.StatusResolved, ResolvedBy := signal.Responder } := by
    simp [loopBody, select, onResolve, executeActivity, armTimer_state]
  have hrest : ∀ rest : List Event,
      eventLoop notifyFails wf (Event.resolve signal :: rest) =
        loopBody notifyFails wf (Event.resolve signal) := by
    intro rest
    simp only [eventLoop, hr, if_false]
    exact eventLoop_resolved _ _ _ (by rw [hst])
  refine ⟨?_, ?_, ?_, ?_⟩
  · rw [hrest, hst]
  · rw [hrest]
    simp [loopBody, select, onResolve, executeActivity, armTimer_state,
      armTimer_activities, armTimer_service]
  · intro rest
    rw [hrest, hrest]
  · intro service es rest hwf
    simp only [IncidentWorkflow]
    rw [run_append, hwf, hrest, hst]
    simp

/-- Scenario B of the specification, an instance of `C2_resolve_transition`:
two escalations, then Resolve by bob, then a late timer. -/
theorem C2_resolve_transition_witness :
    ((run (fun _ => false) "db" [Event.timerFired, Event.timerFired]).state.Status =
        IncidentStatus.StatusOpen ∨
      (run (fun _ => false) "db" [Event.timerFired, Event.timerFired]).state.Status =
        IncidentStatus.StatusAcked) ∧
    IncidentWorkflow none (fun _ => false) "db"
      ([Event.timerFired, Event.timerFired] ++
        Event.resolve { Responder := "bob" } :: [Event.timerFired]) =
      some (some { (run (fun _ => false) "db" [Event.timerFired, Event.timerFired]).state with
          Status := IncidentStatus.StatusResolved, ResolvedBy := "bob" }, none) :=
  ⟨by decide, (C2_resolve_transition (fun _ => false)
    (run (fun _ => false) "db" [Event.timerFired, Event.timerFired])
    { Responder := "bob" } (by decide)).2.2.2 "db" [Event.timerFired, Event.timerFired]
    [Event.timerFired] rfl⟩

/-! ## The workflow inside the substrate: basic facts; C3: alerts -/

theorem execFrom_append (nf : Nat → Bool) (rt : Runtime) (as bs : List Action) :
    execFrom nf rt (as ++ bs) = execFrom nf (execFrom nf rt as) bs := by
  induction as generalizing rt with
  | nil => simp [execFrom]
  | cons a as ih => simp [execFrom, ih]

theorem exec_append (nf : Nat → Bool) (service : String) (as bs : List Action) :
    exec nf service (as ++ bs) = execFrom nf (exec nf service as) bs := by
  simp [exec, execFrom_append]

theorem arrive_wf (rt : Runtime) (ev : Event) : (arrive rt ev).wf = rt.wf := by
  cases ev <;> simp only [arrive] <;> try split
  all_goals rfl

theorem arrive_waiting (rt : Runtime) (ev : Event) : (arrive rt ev).waiting = rt.waiting := by
  cases ev <;> simp only [arrive] <;> try split
  all_goals rfl

theorem received_wf (rt : Runtime) (ev : Event) : (received rt ev).wf = rt.wf := by
  cases ev <;> rfl

theorem armTimer_idem (wf : Workflow) : armTimer (armTimer wf) = armTimer wf := by
  unfold armTimer
  split <;> simp_all

theorem step_resolved (nf : Nat → Bool) (rt : Runtime) (a : Action)
    (h : rt.wf.state.Status = IncidentStatus.StatusResolved) : (step nf rt a).wf = rt.wf := by
  cases a with
  | arrive ev => exact arrive_wf rt ev
  | select => simp [step, selectStep, h]

theorem execFrom_resolved (nf : Nat → Bool) (rt : Runtime) (sched : List Action)
    (h : rt.wf.state.Status = IncidentStatus.StatusResolved) :
    (execFrom nf rt sched).wf = rt.wf := by
  induction sched generalizing rt with
  | nil => rfl
  | cons a rest ih =>
    have hs := step_resolved nf rt a h
    simp only [execFrom]
    rw [ih _ (by rw [hs]; exact h), hs]

theorem step_handled (nf : Nat → Bool) (service : String) (rt : Runtime) (a : Action)
    (h : Handled nf service rt) : Handled nf service (step nf rt a) := by
  obtain ⟨es, hes⟩ := h
  cases a with
  | arrive ev => exact ⟨es, by simp only [step, arrive_wf, arrive_waiting]; exact hes⟩
  | select =>
    simp only [step, selectStep]
    by_cases hr : rt.wf.state.Status = IncidentStatus.StatusResolved
    · simp only [hr, if_true]; exact ⟨es, hes⟩
    · simp only [hr, if_false]
      have htop : (loopTop rt).wf = armTimer (run nf service es) := by
        unfold loopTop
        by_cases hw : rt.waiting = true
        · simp only [hw, if_true] at hes ⊢; exact hes
        · simp only [hw, if_false] at hes ⊢
          simp [hes]
      have hrun : (run nf service es).state.Status ≠ IncidentStatus.StatusResolved := by
        intro hcon
        apply hr
        by_cases hw : rt.waiting = true
        · simp only [hw, if_true] at hes; rw [hes, armTimer_state]; exact hcon
        · simp only [hw, if_false] at hes; rw [hes]; exact hcon
      generalize loopTop rt = rt1 at htop ⊢
      cases hb : readyBranch rt1 with
      | none => exact ⟨es, by simp [htop]⟩
      | some ev =>
        refine ⟨es ++ [ev], ?_⟩
        simp only [if_false, Bool.false_eq_true]
        rw [run_append, eventLoop_single, if_neg hrun, htop]
        rfl

theorem execFrom_handled (nf : Nat → Bool) (service : String) (rt : Runtime)
    (sched : List Action) (h : Handled nf service rt) :
    Handled nf service (execFrom nf rt sched) := by
  induction sched generalizing rt with
  | nil => exact h
  | cons a rest ih => exact ih _ (step_handled nf service rt a h)

theorem exec_handled (nf : Nat → Bool) (service : String) (sched : List Action) :
    ∃ es : List Event,
      (exec nf service sched).wf =
        if (exec nf service sched).waiting = true then armTimer (run nf service es)
        else run nf service es :=
  execFrom_handled nf service _ sched ⟨[], by simp [boot, run, eventLoop]⟩

theorem select_alerts (nf : Nat → Bool) (wf : Workflow) (ev : Event) :
    (select nf wf ev).state.Alerts =
      match ev with
      | Event.addAlert signal => wf.state.Alerts ++ [signal.AlertID]
      | _ => wf.state.Alerts := by
  cases ev with
  | addAlert s => simp [select, onAddAlert, executeActivity]
  | ack s => simp only [select, onAck]; split <;> simp [executeActivity]
  | resolve s => simp [select, onResolve, executeActivity]
  | timerFired =>
    simp only [select, timerReady, onTimer]
    split
    · split
      · rfl
      · simp [executeActivity]
    · rfl
  | timerCanceled =>
    simp only [select, timerReady, onTimer]
    split
    · split <;> rfl
    · rfl

theorem readyBranch_alerts (nf : Nat → Bool) (rt : Runtime) (ev : Event)
    (hb : readyBranch rt = some ev) :
    (select nf rt.wf ev).state.Alerts ++ (received rt ev).addAlertChan.map AddAlertSignal.AlertID =
      rt.wf.state.Alerts ++ rt.addAlertChan.map AddAlertSignal.AlertID := by
  rw [select_alerts]
  unfold readyBranch at hb
  split at hb
  · rename_i s rest hch
    simp only [Option.some.injEq] at hb
    subst hb
    simp [received, hch]
  · rename_i hch
    split at hb
    · simp only [Option.some.injEq] at hb
      subst hb
      simp [received, hch]
    · split at hb
      · simp only [Option.some.injEq] at hb
        subst hb
        simp [received, hch]
      · split at hb
        · split at hb
          · simp only [Option.some.injEq] at hb
            subst hb
            simp [received]
          · simp only [Option.some.injEq] at hb
            subst hb
            simp [received]
          · simp at hb
        · simp at hb

theorem step_alerts (nf : Nat → Bool) (rt : Runtime) (a : Action) :
    (step nf rt a).wf.state.Alerts ++ (step nf rt a).addAlertChan.map AddAlertSignal.AlertID =
      rt.wf.state.Alerts ++ rt.addAlertChan.map AddAlertSignal.AlertID ++ arrivedAlertIDs [a] := by
  cases a with
  | arrive ev =>
    cases ev <;> simp only [step, arrive, arrivedAlertIDs] <;> try split
    all_goals simp
  | select =>
    simp only [step, selectStep, arrivedAlertIDs, List.append_nil]
    split
    · rfl
    · have h1 : (loopTop rt).wf.state.Alerts = rt.wf.state.Alerts ∧
          (loopTop rt).addAlertChan = rt.addAlertChan := by
        unfold loopTop
        split <;> simp [armTimer_state]
      generalize loopTop rt = rt1 at h1 ⊢
      rw [← h1.1, ← h1.2]
      cases hb : readyBranch rt1 with
      | none => rfl
      | some ev => exact readyBranch_alerts nf rt1 ev hb

theorem arrivedAlertIDs_cons (a : Action) (rest : List Action) :
    arrivedAlertIDs (a :: rest) = arrivedAlertIDs [a] ++ arrivedAlertIDs rest := by
  cases a with
  | arrive ev => cases ev <;> simp [arrivedAlertIDs]
  | select => simp [arrivedAlertIDs]

theorem execFrom_alerts (nf : Nat → Bool) (rt : Runtime) (sched : List Action) :
    (execFrom nf rt sched).wf.state.Alerts ++
        (execFrom nf rt sched).addAlertChan.map AddAlertSignal.AlertID =
      rt.wf.state.Alerts ++ rt.addAlertChan.map AddAlertSignal.AlertID ++
        arrivedAlertIDs sched := by
  induction sched generalizing rt with
  | nil => simp [execFrom, arrivedAlertIDs]
  | cons a rest ih =>
    simp only [execFrom]
    rw [ih, step_alerts, arrivedAlertIDs_cons a rest]
    simp

theorem selectStep_addAlert_first (nf : Nat → Bool) (rt : Runtime) (signal : AddAlertSignal)
    (rest : List AddAlertSignal) (hch : rt.addAlertChan = signal :: rest)
    (hr : rt.wf.state.Status ≠ IncidentStatus.StatusResolved) :
    (selectStep nf rt).wf.state.Alerts = rt.wf.state.Alerts ++ [signal.AlertID] ∧
      (selectStep nf rt).addAlertChan = rest := by
  have h1 : (loopTop rt).wf.state.Alerts = rt.wf.state.Alerts ∧
      (loopTop rt).addAlertChan = signal :: rest := by
    unfold loopTop
    split
    · exact ⟨rfl, hch⟩
    · exact ⟨by simp [armTimer_state], hch⟩
  simp only [selectStep, if_neg hr]
  generalize loopTop rt = rt1 at h1 ⊢
  have hb : readyBranch rt1 = some (Event.addAlert signal) := by
    simp [readyBranch, h1.2]
  simp only [hb]
  refine ⟨?_, by simp [received, h1.2]⟩
  show (select nf rt1.wf (Event.addAlert signal)).state.Alerts = _
  rw [select_alerts, h1.1]

/-- C3 as stated fails: when the loop handles a Resolve before an AddAlert
arrives (for instance while the notification of the Resolve is still being
sent), the AddAlert stays buffered and is never received, so the final alerts
are not the ids of all the AddAlert signals that arrived. -/
theorem C3_counterexample :
    (exec (fun _ => false) "db"
      [Action.arrive (Event.resolve { Responder := "bob" }), Action.select,
        Action.arrive (Event.addAlert { AlertID := "a1" }), Action.select]).wf.state.Alerts
      ≠ arrivedAlertIDs
        [Action.arrive (Event.resolve { Responder := "bob" }), Action.select,
          Action.arrive (Event.addAlert { AlertID := "a1" }), Action.select] := by
  decide

/-- C3, amended: for every schedule in which AddAlert(a1), ..., AddAlert(an)
arrive, interleaved in any way with the arrival of other events and with the
steps of the loop, the alerts are at every moment the ids of the AddAlert
signals received so far: a beginning [a1, ..., ak] of the ids in arrival
order, duplicates included, the other n - k ids being exactly those still
buffered on the add-alert channel.  While the loop runs, its next step
receives the oldest buffered AddAlert, ahead of anything else that is
buffered; once the status is RESOLVED the loop has ended and the alerts no
longer change, whatever is buffered or arrives. -/
theorem C3_alerts_received_in_order (notifyFails : Nat → Bool) (service : String)
    (sched : List Action) :
    (exec notifyFails service sched).wf.state.Alerts ++
        (exec notifyFails service sched).addAlertChan.map AddAlertSignal.AlertID =
      arrivedAlertIDs sched ∧
    (exec notifyFails service sched).wf.state.Alerts.length +
        (exec notifyFails service sched).addAlertChan.length =
      (arrivedAlertIDs sched).length ∧
    (∀ (signal : AddAlertSignal) (rest : List AddAlertSignal),
      (exec notifyFails service sched).addAlertChan = signal :: rest →
      (exec notifyFails service sched).wf.state.Status ≠ IncidentStatus.StatusResolved →
        (exec notifyFails service (sched ++ [Action.select])).wf.state.Alerts =
          (exec notifyFails service sched).wf.state.Alerts ++ [signal.AlertID]) ∧
    ((exec notifyFails service sched).wf.state.Status = IncidentStatus.StatusResolved →
      ∀ more : List Action,
        (exec notifyFails service (sched ++ more)).wf.state.Alerts =
          (exec notifyFails service sched).wf.state.Alerts) := by
  have h : (exec notifyFails service sched).wf.state.Alerts ++
        (exec notifyFails service sched).addAlertChan.map AddAlertSignal.AlertID =
      arrivedAlertIDs sched := by
    have h0 := execFrom_alerts notifyFails (boot notifyFails service) sched
    simpa [exec, boot, start_state, initialState] using h0
  refine ⟨h, ?_, ?_, ?_⟩
  · have hl := congrArg List.length h
    simpa using hl
  · intro signal rest hch hr
    rw [exec_append]
    exact (selectStep_addAlert_first notifyFails _ signal rest hch hr).1
  · intro hres more
    rw [exec_append, execFrom_resolved _ _ _ hres]

/-- An AddAlert and a Resolve both buffered, then a second AddAlert after the
Resolve was handled: an instance of `C3_alerts_received_in_order`.  The first
alert is received ahead of the Resolve and kept, the second one stays
buffered for good. -/
theorem C3_alerts_received_in_order_witness :
    (exec (fun _ => false) "db"
      [Action.arrive (Event.addAlert { AlertID := "a1" }),
        Action.arrive (Event.resolve { Responder := "bob" }), Action.select,
        Action.select]).wf.state.Status = IncidentStatus.StatusResolved ∧
    (exec (fun _ => false) "db"
      ([Action.arrive (Event.addAlert { AlertID := "a1" }),
        Action.arrive (Event.resolve { Responder := "bob" }), Action.select, Action.select] ++
        [Action.arrive (Event.addAlert { AlertID := "a2" }), Action.select])).wf.state.Alerts =
      ["a1"] :=
  ⟨by decide, ((C3_alerts_received_in_order (fun _ => false) "db"
    [Action.arrive (Event.addAlert { AlertID := "a1" }),
      Action.arrive (Event.resolve { Responder := "bob" }), Action.select,
      Action.select]).2.2.2 (by decide)
    [Action.arrive (Event.addAlert { AlertID := "a2" }), Action.select]).trans (by decide)⟩

/-! ## C4: escalation level -/

theorem wrapInt_succ (x : Int) (h0 : 0 ≤ x) (h1 : x + 1 < 9223372036854775808) :
    wrapInt (x + 1) = x + 1 := by
  unfold wrapInt
  omega

theorem stateLoop_level_not_open (st : IncidentState) (es : List Event)
    (h : st.Status ≠ IncidentStatus.StatusOpen) :
    (stateLoop st es).EscalationLevel = st.EscalationLevel := by
  induction es generalizing st with
  | nil => simp [stateLoop]
  | cons ev es ih =>
    by_cases hr : st.Status = IncidentStatus.StatusResolved
    · simp [stateLoop, hr]
    · simp only [stateLoop, hr, if_false]
      cases ev <;> simp [nextState, h] <;> rw [ih] <;> simp [h]

theorem stateLoop_level (st : IncidentState) (es : List Event)
    (ho : st.Status = IncidentStatus.StatusOpen) (h0 : 0 ≤ st.EscalationLevel)
    (h1 : st.EscalationLevel + es.length < 9223372036854775808) :
    (stateLoop st es).EscalationLevel =
      st.EscalationLevel + ((es.takeWhile keepsOpen).count Event.timerFired : Nat) := by
  induction es generalizing st with
  | nil => simp [stateLoop]
  | cons ev es ih =>
    have hr : st.Status ≠ IncidentStatus.StatusResolved := by simp [ho]
    simp only [List.length_cons, Nat.cast_add, Nat.cast_one] at h1
    simp only [stateLoop, hr, if_false]
    cases ev with
    | addAlert s =>
      rw [ih _ (by simpa [nextState] using ho) (by simpa [nextState] using h0)
        (by simp only [nextState]; omega)]
      simp [nextState, keepsOpen]
    | ack s =>
      rw [stateLoop_level_not_open _ _ (by simp [nextState, ho])]
      simp [nextState, keepsOpen, ho]
    | resolve s =>
      rw [stateLoop_level_not_open _ _ (by simp [nextState])]
      simp [nextState, keepsOpen]
    | timerFired =>
      have hw := wrapInt_succ st.EscalationLevel h0 (by omega)
      rw [ih _ (by simp [nextState, ho]) (by simp [nextState, ho, hw]; omega)
        (by simp [nextState, ho, hw]; omega)]
      simp [nextState, keepsOpen, ho, hw]
      omega
    | timerCanceled =>
      rw [ih _ (by simpa [nextState] using ho) (by simpa [nextState] using h0)
        (by simp only [nextState]; omega)]
      simp [nextState, keepsOpen]

theorem stateLoop_level_range (st : IncidentState) (es : List Event)
    (h0 : 0 ≤ st.EscalationLevel)
    (h1 : st.EscalationLevel + es.length < 9223372036854775808) :
    0 ≤ (stateLoop st es).EscalationLevel ∧
      (stateLoop st es).EscalationLevel ≤ st.EscalationLevel + es.length := by
  by_cases ho : st.Status = IncidentStatus.StatusOpen
  · rw [stateLoop_level st es ho h0 h1]
    have hc : (es.takeWhile keepsOpen).count Event.timerFired ≤ es.length :=
      le_trans (List.count_le_length _ _) (List.takeWhile_sublist _).length_le
    omega
  · rw [stateLoop_level_not_open st es ho]
    omega

theorem stateLoop_single_level (st : IncidentState) (ev : Event)
    (h0 : 0 ≤ st.EscalationLevel) (h1 : st.EscalationLevel + 1 < 9223372036854775808) :
    (stateLoop st [ev]).EscalationLevel =
      st.EscalationLevel +
        (if ev = Event.timerFired ∧ st.Status = IncidentStatus.StatusOpen then 1 else 0) := by
  by_cases hr : st.Status = IncidentStatus.StatusResolved
  · simp [stateLoop, hr]
  · simp only [stateLoop, hr, if_false]
    cases ev with
    | timerFired =>
      by_cases ho : st.Status = IncidentStatus.StatusOpen
      · simp [nextState, ho, wrapInt_succ st.EscalationLevel h0 h1]
      · simp [nextState, ho]
    | ack s => simp only [nextState]; split <;> simp
    | _ => simp [nextState]

/-- C4: for every event sequence (shorter than 2^63, so that the Go `int`
cannot wrap) run from the fresh state, an event changes the escalation level
exactly when it is a timer fire handled while the status is still OPEN, and
then by exactly 1; a timer event after an Ack or Resolve never changes it; so
the final level is the number of timer fires that arrive while the incident
is OPEN, that is before the first Ack or Resolve. -/
theorem C4_escalation_level (notifyFails : Nat → Bool) (service : String) (es : List Event)
    (hlen : es.length < 2 ^ 63) :
    (∀ (pre post : List Event) (ev : Event), es = pre ++ ev :: post →
      (run notifyFails service (pre ++ [ev])).state.EscalationLevel =
        (run notifyFails service pre).state.EscalationLevel +
          (if ev = Event.timerFired ∧
              (run notifyFails service pre).state.Status = IncidentStatus.StatusOpen
            then 1 else 0)) ∧
    (run notifyFails service es).state.EscalationLevel =
      ((es.takeWhile keepsOpen).count Event.timerFired : Nat) := by
  have hlen2 : (es.length : Int) < 9223372036854775808 := by
    have : (2 : Nat) ^ 63 = 9223372036854775808 := by norm_num
    omega
  constructor
  · intro pre post ev hes
    have hpre : (pre.length : Int) + 1 < 9223372036854775808 := by
      have : es.length = pre.length + (post.length + 1) := by simp [hes]
      omega
    have hrange := stateLoop_level_range (initialState service) pre
      (by simp [initialState]) (by simp [initialState]; omega)
    have hz : (initialState service).EscalationLevel = 0 := rfl
    rw [hz] at hrange
    rw [run_append, eventLoop_state _ _ _ (run_held _ _ _), run_state]
    exact stateLoop_single_level _ ev hrange.1 (by omega)
  · rw [run_state, stateLoop_level _ _ (by simp [initialState]) (by simp [initialState])
      (by simp [initialState]; omega)]
    simp [initialState]

/-- Two escalations, an Ack, and the firing of the timer that was pending at
the Ack: an instance of `C4_escalation_level`. -/
theorem C4_escalation_level_witness :
    [Event.timerFired, Event.timerFired, Event.ack { Responder := "carol" },
      Event.timerFired].length < 2 ^ 63 ∧
    (run (fun _ => false) "db"
      [Event.timerFired, Event.timerFired, Event.ack { Responder := "carol" },
        Event.timerFired]).state.EscalationLevel =
      (([Event.timerFired, Event.timerFired, Event.ack { Responder := "carol" },
        Event.timerFired].takeWhile keepsOpen).count Event.timerFired : Nat) :=
  ⟨by decide, (C4_escalation_level (fun _ => false) "db"
    [Event.timerFired, Event.timerFired, Event.ack { Responder := "carol" }, Event.timerFired]
    (by decide)).2⟩

/-! ## C5, C6, C7: status order, termination, notification outcomes -/

theorem loopBody_status (nf : Nat → Bool) (wf : Workflow) (ev : Event)
    (hr : wf.state.Status ≠ IncidentStatus.StatusResolved) :
    (wf.state.Status, (loopBody nf wf ev).state.Status) ∈ forwardMoves := by
  rcases wf with ⟨sv, ⟨s1, status, al, lv, ab, rb⟩, need, tf, ts, acts⟩
  cases status <;> cases ev <;> cases need <;> cases tf <;>
    simp_all [loopBody, select, onAddAlert, onAck, onResolve, timerReady, onTimer, armTimer,
      timerRegistered, executeActivity, forwardMoves]

/-- C5: for every state, reachable or not, and every event, the status before
and after the event is one of OPEN to OPEN, OPEN to ACKED, OPEN to RESOLVED,
ACKED to ACKED, ACKED to RESOLVED when the loop handles the event, and a
RESOLVED workflow handles nothing and stays as it is; the same along every
run from the fresh state. -/
theorem C5_status_never_backward (notifyFails : Nat → Bool) (wf : Workflow) (ev : Event) :
    ((wf.state.Status, (eventLoop notifyFails wf [ev]).state.Status) ∈ forwardMoves ∨
      (wf.state.Status = IncidentStatus.StatusResolved ∧ eventLoop notifyFails wf [ev] = wf)) ∧
    (∀ (service : String) (es : List Event),
      ((run notifyFails service es).state.Status,
          (run notifyFails service (es ++ [ev])).state.Status) ∈ forwardMoves ∨
        ((run notifyFails service es).state.Status = IncidentStatus.StatusResolved ∧
          run notifyFails service (es ++ [ev]) = run notifyFails service es)) := by
  have key : ∀ w : Workflow,
      (w.state.Status, (eventLoop notifyFails w [ev]).state.Status) ∈ forwardMoves ∨
        (w.state.Status = IncidentStatus.StatusResolved ∧ eventLoop notifyFails w [ev] = w) := by
    intro w
    by_cases hr : w.state.Status = IncidentStatus.StatusResolved
    · right; exact ⟨hr, eventLoop_resolved _ _ _ hr⟩
    · left
      rw [eventLoop_single, if_neg hr]
      exact loopBody_status _ _ _ hr
  refine ⟨key wf, ?_⟩
  intro service es
  rw [run_append]
  exact key _

/-- C6: for every event sequence `es`, responder and further events `rest`,
running the workflow on `es ++ [Resolve r] ++ rest` gives the same
configuration (all six fields of the state included) and the same return
value as running it on `es ++ [Resolve r]`; the status is then RESOLVED and
the loop handles none of `rest`. -/
theorem C6_resolved_is_terminal (setQueryHandlerErr : Option String) (notifyFails : Nat → Bool)
    (service : String) (es : List Event) (signal : ResolveSignal) (rest : List Event) :
    run notifyFails service (es ++ [Event.resolve signal] ++ rest) =
      run notifyFails service (es ++ [Event.resolve signal]) ∧
    IncidentWorkflow setQueryHandlerErr notifyFails service (es ++ [Event.resolve signal] ++ rest) =
      IncidentWorkflow setQueryHandlerErr notifyFails service (es ++ [Event.resolve signal]) ∧
    (run notifyFails service (es ++ [Event.resolve signal])).state.Status =
      IncidentStatus.StatusResolved ∧
    eventLoop notifyFails (run notifyFails service (es ++ [Event.resolve signal])) rest =
      run notifyFails service (es ++ [Event.resolve signal]) := by
  have hres : (run notifyFails service (es ++ [Event.resolve signal])).state.Status =
      IncidentStatus.StatusResolved := by
    rw [run_append, eventLoop_single]
    split
    · assumption
    · simp [loopBody, select, onResolve, executeActivity]
  have hrun : run notifyFails service (es ++ [Event.resolve signal] ++ rest) =
      run notifyFails service (es ++ [Event.resolve signal]) := by
    rw [run_append, eventLoop_resolved _ _ _ hres]
  refine ⟨hrun, ?_, hres, eventLoop_resolved _ _ _ hres⟩
  simp only [IncidentWorkflow, hrun]

/-- C7: for every event sequence and any two assignments of success or
failure to the `SendNotification` calls, the workflow reaches the same state
and returns the same value, which is never an error when the query handler
was registered; whatever the outcome of the initial notification, the
incident is created in its initial state, with status OPEN. -/
theorem C7_state_independent_of_notifications (notifyFails notifyFails2 : Nat → Bool)
    (service : String) (es : List Event) :
    (run notifyFails service es).state = (run notifyFails2 service es).state ∧
    (∀ setQueryHandlerErr : Option String,
      IncidentWorkflow setQueryHandlerErr notifyFails service es =
        IncidentWorkflow setQueryHandlerErr notifyFails2 service es) ∧
    (IncidentWorkflow none notifyFails service es = none ∨
      IncidentWorkflow none notifyFails service es =
        some (some (run notifyFails service es).state, none)) ∧
    (start notifyFails service).state = initialState service ∧
    (start notifyFails service).state.Status = IncidentStatus.StatusOpen := by
  have hst : (run notifyFails service es).state = (run notifyFails2 service es).state := by
    rw [run_state, run_state]
  refine ⟨hst, ?_, ?_, start_state _ _, by rw [start_state]; rfl⟩
  · intro q
    cases q <;> simp [IncidentWorkflow, hst]
  · simp only [IncidentWorkflow]
    split <;> simp

/-! ## C8: timer arming -/

theorem createsTimer_iff (wf : Workflow) :
    createsTimer wf = true ↔
      (wf.state.Status = IncidentStatus.StatusOpen ∧ wf.needNewTimer = true) := by
  unfold createsTimer armTimer
  split <;> simp_all

theorem createsTimer_false (wf : Workflow) (h : createsTimer wf = false) : armTimer wf = wf := by
  have h1 : ¬ (wf.state.Status = IncidentStatus.StatusOpen ∧ wf.needNewTimer = true) := by
    rw [← createsTimer_iff, h]; simp
  simp only [armTimer, if_neg h1]

theorem select_timersStarted (nf : Nat → Bool) (wf : Workflow) (ev : Event) :
    (select nf wf ev).timersStarted = wf.timersStarted ∧
      (select nf wf ev).timerFuture = wf.timerFuture := by
  cases ev with
  | addAlert s => simp [select, onAddAlert, executeActivity]
  | ack s => simp only [select, onAck]; split <;> simp [executeActivity]
  | resolve s => simp [select, onResolve, executeActivity]
  | timerFired =>
    simp only [select, timerReady, onTimer]
    split
    · split
      · exact ⟨rfl, rfl⟩
      · simp [executeActivity]
    · exact ⟨rfl, rfl⟩
  | timerCanceled =>
    simp only [select, timerReady, onTimer]
    split
    · split <;> exact ⟨rfl, rfl⟩
    · exact ⟨rfl, rfl⟩

theorem select_needNewTimer (nf : Nat → Bool) (wf : Workflow) (ev : Event)
    (hev : ev ≠ Event.timerFired) : (select nf wf ev).needNewTimer = wf.needNewTimer := by
  cases ev with
  | addAlert s => simp [select, onAddAlert, executeActivity]
  | ack s => simp only [select, onAck]; split <;> simp [executeActivity]
  | resolve s => simp [select, onResolve, executeActivity]
  | timerFired => exact absurd rfl hev
  | timerCanceled =>
    simp only [select, timerReady, onTimer]
    split
    · split <;> rfl
    · rfl

theorem select_fired (nf : Nat → Bool) (wf : Workflow) (h : timerRegistered wf = true) :
    (select nf wf Event.timerFired).needNewTimer = true := by
  have ho : wf.state.Status = IncidentStatus.StatusOpen := by
    simp [timerRegistered] at h; exact h.1
  simp [select, timerReady, onTimer, h, ho, executeActivity]

theorem select_not_open (nf : Nat → Bool) (wf : Workflow) (ev : Event)
    (h : wf.state.Status ≠ IncidentStatus.StatusOpen) :
    (select nf wf ev).state.Status ≠ IncidentStatus.StatusOpen := by
  cases ev with
  | addAlert s => simpa [select, onAddAlert, executeActivity] using h
  | ack s => simp [select, onAck, h]
  | resolve s => simp [select, onResolve, executeActivity]
  | timerFired => simp [select, timerReady, timerRegistered, h]
  | timerCanceled => simp [select, timerReady, timerRegistered, h]

theorem select_addAlert_keeps (nf : Nat → Bool) (wf : Workflow) (signal : AddAlertSignal) :
    (select nf wf (Event.addAlert signal)).state.Status = wf.state.Status ∧
      (select nf wf (Event.addAlert signal)).needNewTimer = wf.needNewTimer := by
  simp [select, onAddAlert, executeActivity]

theorem futureReady_some (rt : Runtime) (b : Bool) (h : futureReady rt = some b) :
    ∃ id, rt.wf.timerFuture = some id ∧ id < rt.completions.length ∧ b ∈ rt.completions := by
  unfold futureReady at h
  split at h
  · simp at h
  · rename_i id hid
    refine ⟨id, hid, ?_, ?_⟩
    · by_contra hlt
      rw [List.getElem?_eq_none (by omega)] at h
      simp at h
    · exact List.getElem?_mem h

theorem readyBranch_timer (rt : Runtime) (ev : Event) (hb : readyBranch rt = some ev)
    (hev : ev = Event.timerFired ∨ ev = Event.timerCanceled) :
    timerRegistered rt.wf = true ∧
      futureReady rt = some (decide (ev = Event.timerCanceled)) := by
  unfold readyBranch at hb
  split at hb
  · simp only [Option.some.injEq] at hb; subst hb; simp at hev
  · split at hb
    · simp only [Option.some.injEq] at hb; subst hb; simp at hev
    · split at hb
      · simp only [Option.some.injEq] at hb; subst hb; simp at hev
      · split at hb
        · rename_i hreg
          refine ⟨hreg, ?_⟩
          split at hb
          · rename_i hf
            simp only [Option.some.injEq] at hb; subst hb; simpa using hf
          · rename_i hf
            simp only [Option.some.injEq] at hb; subst hb; simpa using hf
          · simp at hb
        · simp at hb

theorem readyBranch_addAlert (rt : Runtime) (h : rt.addAlertChan ≠ []) :
    ∃ signal, readyBranch rt = some (Event.addAlert signal) := by
  unfold readyBranch
  split
  · exact ⟨_, rfl⟩
  · rename_i hnil; exact absurd hnil h

theorem loopTop_timerInv (rt : Runtime) (h : TimerInv rt) :
    TimerInv (loopTop rt) ∧ TopDone (loopTop rt) := by
  obtain ⟨h1, h2, h3, h4, h5⟩ := h
  unfold loopTop
  by_cases hw : rt.waiting = true
  · rw [if_pos hw]
    exact ⟨⟨h1, h2, h3, h4, h5⟩, h5 hw⟩
  · rw [if_neg hw]
    by_cases hc : rt.wf.state.Status = IncidentStatus.StatusOpen ∧ rt.wf.needNewTimer = true
    · have hn := h3 hc.2
      simp only [armTimer, if_pos hc]
      refine ⟨⟨?_, ?_, ?_, ?_, ?_⟩, ?_⟩
      · show rt.completions.length ≤ rt.wf.timersStarted + 1
        omega
      · show rt.wf.timersStarted + 1 ≤ rt.completions.length + 1
        omega
      · intro hcon; simp at hcon
      · intro id hid
        simp only [Option.some.injEq] at hid
        show id + 1 = rt.wf.timersStarted + 1
        omega
      · intro hcon; exact absurd hcon hw
      · simp [TopDone]
    · simp only [armTimer, if_neg hc]
      exact ⟨⟨h1, h2, h3, h4, fun hcon => absurd hcon hw⟩, hc⟩

theorem arrive_timerInv (rt : Runtime) (ev : Event) (h : TimerInv rt) :
    TimerInv (arrive rt ev) := by
  obtain ⟨h1, h2, h3, h4, h5⟩ := h
  cases ev with
  | addAlert s => exact ⟨h1, h2, h3, h4, h5⟩
  | ack s => exact ⟨h1, h2, h3, h4, h5⟩
  | resolve s => exact ⟨h1, h2, h3, h4, h5⟩
  | timerFired =>
    simp only [arrive]
    split
    · rename_i hlt
      refine ⟨by simp; omega, by simp; omega, ?_, h4, h5⟩
      intro hn; have := h3 hn; omega
    · exact ⟨h1, h2, h3, h4, h5⟩
  | timerCanceled =>
    simp only [arrive]
    split
    · rename_i hlt
      refine ⟨by simp; omega, by simp; omega, ?_, h4, h5⟩
      intro hn; have := h3 hn; omega
    · exact ⟨h1, h2, h3, h4, h5⟩

theorem received_fields (rt : Runtime) (ev : Event) :
    (received rt ev).completions = rt.completions ∧
      (received rt ev).timerCallbacks =
        rt.timerCallbacks +
          (if ev = Event.timerFired ∨ ev = Event.timerCanceled then 1 else 0) := by
  cases ev <;> simp [received]

theorem selectStep_timerInv (nf : Nat → Bool) (rt : Runtime) (h : TimerInv rt) :
    TimerInv (selectStep nf rt) := by
  simp only [selectStep]
  split
  · exact h
  · obtain ⟨hinv, htop⟩ := loopTop_timerInv rt h
    generalize loopTop rt = rt1 at hinv htop ⊢
    obtain ⟨h1, h2, h3, h4, h5⟩ := hinv
    cases hb : readyBranch rt1 with
    | none => exact ⟨h1, h2, h3, h4, fun _ => htop⟩
    | some ev =>
      have hts := select_timersStarted nf rt1.wf ev
      have hrc := (received_fields rt1 ev).1
      refine ⟨?_, ?_, ?_, ?_, ?_⟩
      · simp only [hts.1, hrc]; exact h1
      · simp only [hts.1, hrc]; exact h2
      · simp only [hts.1, hrc]
        by_cases hev : ev = Event.timerFired
        · subst hev
          intro _
          obtain ⟨hreg, hf⟩ := readyBranch_timer rt1 _ hb (Or.inl rfl)
          obtain ⟨id, hid, hlt, _⟩ := futureReady_some rt1 _ hf
          have := h4 id hid
          omega
        · rw [select_needNewTimer nf rt1.wf ev hev]; exact h3
      · simp only [hts.1, hts.2]; exact h4
      · simp

theorem step_timerInv (nf : Nat → Bool) (rt : Runtime) (a : Action) (h : TimerInv rt) :
    TimerInv (step nf rt a) := by
  cases a with
  | arrive ev => exact arrive_timerInv rt ev h
  | select => exact selectStep_timerInv nf rt h

theorem execFrom_timerInv (nf : Nat → Bool) (rt : Runtime) (sched : List Action)
    (h : TimerInv rt) : TimerInv (execFrom nf rt sched) := by
  induction sched generalizing rt with
  | nil => exact h
  | cons a rest ih => exact ih _ (step_timerInv nf rt a h)

theorem boot_timerInv (nf : Nat → Bool) (service : String) : TimerInv (boot nf service) := by
  simp [TimerInv, boot, start, executeActivity]

theorem exec_timerInv (nf : Nat → Bool) (service : String) (sched : List Action) :
    TimerInv (exec nf service sched) :=
  execFrom_timerInv nf _ sched (boot_timerInv nf service)

theorem arrive_fireInv (rt : Runtime) (ev : Event) (hev : ev ≠ Event.timerCanceled)
    (h : FireInv rt) : FireInv (arrive rt ev) := by
  obtain ⟨h1, h2, h3, h4⟩ := h
  cases ev with
  | addAlert s => exact ⟨h1, h2, h3, h4⟩
  | ack s => exact ⟨h1, h2, h3, h4⟩
  | resolve s => exact ⟨h1, h2, h3, h4⟩
  | timerFired =>
    simp only [arrive]
    split
    · refine ⟨?_, ?_, h3, h4⟩
      · intro b hb
        simp only [List.mem_append, List.mem_singleton] at hb
        rcases hb with hb | hb
        · exact h1 b hb
        · exact hb
      · simp only [List.length_append, List.length_singleton]; omega
    · exact ⟨h1, h2, h3, h4⟩
  | timerCanceled => exact absurd rfl hev

theorem loopTop_fireInv (rt : Runtime) (h : FireInv rt) : FireInv (loopTop rt) := by
  obtain ⟨h1, h2, h3, h4⟩ := h
  unfold loopTop
  by_cases hw : rt.waiting = true
  · rw [if_pos hw]; exact ⟨h1, h2, h3, h4⟩
  · rw [if_neg hw]
    by_cases hc : rt.wf.state.Status = IncidentStatus.StatusOpen ∧ rt.wf.needNewTimer = true
    · have hn := h4.1 hc.2
      simp only [armTimer, if_pos hc]
      refine ⟨h1, h2, ?_, ?_⟩
      · show rt.wf.timersStarted + 1 ≤ rt.timerCallbacks + 1
        omega
      · constructor
        · intro hcon; simp at hcon
        · intro hcon
          have : rt.wf.timersStarted + 1 = rt.timerCallbacks := hcon
          omega
    · simp only [armTimer, if_neg hc]
      exact ⟨h1, h2, h3, h4⟩

theorem selectStep_fireInv (nf : Nat → Bool) (rt : Runtime) (hinv : TimerInv rt)
    (h : FireInv rt) : FireInv (selectStep nf rt) := by
  simp only [selectStep]
  split
  · exact h
  · obtain ⟨hti, htop⟩ := loopTop_timerInv rt hinv
    have hfi := loopTop_fireInv rt h
    generalize loopTop rt = rt1 at hti htop hfi ⊢
    obtain ⟨h1, h2, h3, h4⟩ := hfi
    obtain ⟨t1, t2, t3, t4, t5⟩ := hti
    cases hb : readyBranch rt1 with
    | none => exact ⟨h1, h2, h3, h4⟩
    | some ev =>
      have hts := select_timersStarted nf rt1.wf ev
      have hrc := received_fields rt1 ev
      by_cases hev : ev = Event.timerFired ∨ ev = Event.timerCanceled
      · obtain ⟨hreg, hf⟩ := readyBranch_timer rt1 _ hb hev
        obtain ⟨id, hid, hlt, hmem⟩ := futureReady_some rt1 _ hf
        have hfalse := h1 _ hmem
        have hfired : ev = Event.timerFired := by
          rcases hev with hev | hev
          · exact hev
          · subst hev; simp at hfalse
        subst hfired
        have hopen : rt1.wf.state.Status = IncidentStatus.StatusOpen := by
          simp [timerRegistered] at hreg; exact hreg.1
        have hneed : rt1.wf.needNewTimer ≠ true := fun hcon => htop ⟨hopen, hcon⟩
        have hne : rt1.wf.timersStarted ≠ rt1.timerCallbacks := fun hcon => hneed (h4.2 hcon)
        have hid1 := t4 id hid
        refine ⟨?_, ?_, ?_, ?_⟩
        · simp only [hrc.1]; exact h1
        · simp only [hrc.1, hrc.2]; simp; omega
        · simp only [hts.1, hrc.2]; simp; omega
        · simp only [hts.1, hrc.2, select_fired nf rt1.wf hreg]; simp; omega
      · have hne : ev ≠ Event.timerFired := fun hcon => hev (Or.inl hcon)
        refine ⟨?_, ?_, ?_, ?_⟩
        · simp only [hrc.1]; exact h1
        · simp only [hrc.1, hrc.2, if_neg hev]; exact h2
        · simp only [hts.1, hrc.2, if_neg hev]; exact h3
        · simp only [hts.1, hrc.2, if_neg hev, select_needNewTimer nf rt1.wf ev hne]; exact h4

theorem execFrom_fireInv (nf : Nat → Bool) (rt : Runtime) (sched : List Action)
    (hs : Action.arrive Event.timerCanceled ∉ sched) (hinv : TimerInv rt) (h : FireInv rt) :
    FireInv (execFrom nf rt sched) := by
  induction sched generalizing rt with
  | nil => exact h
  | cons a rest ih =>
    simp only [List.mem_cons, not_or] at hs
    refine ih _ hs.2 (step_timerInv nf rt a hinv) ?_
    cases a with
    | arrive ev => exact arrive_fireInv rt ev (fun hcon => hs.1 (by rw [hcon])) h
    | select => exact selectStep_fireInv nf rt hinv h

theorem boot_fireInv (nf : Nat → Bool) (service : String) : FireInv (boot nf service) := by
  simp [FireInv, boot, start, executeActivity]

theorem step_not_open (nf : Nat → Bool) (rt : Runtime) (a : Action)
    (h : rt.wf.state.Status ≠ IncidentStatus.StatusOpen) :
    (step nf rt a).wf.state.Status ≠ IncidentStatus.StatusOpen ∧
      (step nf rt a).wf.timersStarted = rt.wf.timersStarted := by
  cases a with
  | arrive ev => simp only [step, arrive_wf]; exact ⟨h, trivial⟩
  | select =>
    simp only [step, selectStep]
    split
    · exact ⟨h, rfl⟩
    · have htop : (loopTop rt).wf = rt.wf := by
        unfold loopTop
        split
        · rfl
        · simp [armTimer_not_open _ h]
      generalize loopTop rt = rt1 at htop ⊢
      cases hb : readyBranch rt1 with
      | none => simp only [htop]; exact ⟨h, trivial⟩
      | some ev =>
        simp only [htop]
        exact ⟨select_not_open nf rt.wf ev h, (select_timersStarted nf rt.wf ev).1⟩

theorem execFrom_not_open (nf : Nat → Bool) (rt : Runtime) (sched : List Action)
    (h : rt.wf.state.Status ≠ IncidentStatus.StatusOpen) :
    (execFrom nf rt sched).wf.state.Status ≠ IncidentStatus.StatusOpen ∧
      (execFrom nf rt sched).wf.timersStarted = rt.wf.timersStarted := by
  induction sched generalizing rt with
  | nil => exact ⟨h, rfl⟩
  | cons a rest ih =>
    have h1 := step_not_open nf rt a h
    have h2 := ih _ h1.1
    exact ⟨h2.1, h2.2.trans h1.2⟩

theorem selectStep_addAlert (nf : Nat → Bool) (rt : Runtime) (hinv : TimerInv rt)
    (h : rt.addAlertChan ≠ []) : createsTimer (selectStep nf rt).wf = false := by
  have key : ∀ wf : Workflow,
      ¬ (wf.state.Status = IncidentStatus.StatusOpen ∧ wf.needNewTimer = true) →
        createsTimer wf = false := by
    intro wf hwf
    cases hc : createsTimer wf
    · rfl
    · exact absurd ((createsTimer_iff wf).1 hc) hwf
  simp only [selectStep]
  split
  · rename_i hr
    exact key _ (by simp [hr])
  · obtain ⟨_, htop⟩ := loopTop_timerInv rt hinv
    have hch : (loopTop rt).addAlertChan ≠ [] := by
      unfold loopTop; split <;> exact h
    generalize loopTop rt = rt1 at htop hch ⊢
    obtain ⟨signal, hb⟩ := readyBranch_addAlert rt1 hch
    simp only [hb]
    apply key
    have hk := select_addAlert_keeps nf rt1.wf signal
    show ¬ ((select nf rt1.wf (Event.addAlert signal)).state.Status = IncidentStatus.StatusOpen ∧
      (select nf rt1.wf (Event.addAlert signal)).needNewTimer = true)
    rw [hk.1, hk.2]
    exact htop

/-- C8 as stated fails: a timer that fires while the workflow is busy sending
the notification of an AddAlert is no longer outstanding; the workflow then
stands at the top of its next iteration with the status OPEN and no timer
outstanding, and yet creates no timer, because the timer callback has not run
yet. -/
theorem C8_counterexample :
    (exec (fun _ => false) "db"
      [Action.select, Action.arrive (Event.addAlert { AlertID := "a1" }), Action.select,
        Action.arrive Event.timerFired]).waiting = false ∧
    (exec (fun _ => false) "db"
      [Action.select, Action.arrive (Event.addAlert { AlertID := "a1" }), Action.select,
        Action.arrive Event.timerFired]).wf.state.Status = IncidentStatus.StatusOpen ∧
    outstanding (exec (fun _ => false) "db"
      [Action.select, Action.arrive (Event.addAlert { AlertID := "a1" }), Action.select,
        Action.arrive Event.timerFired]) = 0 ∧
    createsTimer (exec (fun _ => false) "db"
      [Action.select, Action.arrive (Event.addAlert { AlertID := "a1" }), Action.select,
        Action.arrive Event.timerFired]).wf = false := by
  decide

/-- C8, amended: at the top of every loop iteration a timer is created exactly
when the status is OPEN and `needNewTimer` is set.  A timer is created only
when none is outstanding, so at most one timer is outstanding before and
after the top of the loop; the step that handles an AddAlert leaves nothing
to create at the next top; and once the status has left OPEN no timer is
created whatever follows.  In runs whose timers all complete by firing, a
timer is created exactly when the status is OPEN, no timer is outstanding and
the timer callback has run for every timer that fired: a timer that has
fired but whose callback has not run yet still holds the next one back. -/
theorem C8_timer_arming (notifyFails : Nat → Bool) (service : String) (sched : List Action) :
    (createsTimer (exec notifyFails service sched).wf = true ↔
      ((exec notifyFails service sched).wf.state.Status = IncidentStatus.StatusOpen ∧
        (exec notifyFails service sched).wf.needNewTimer = true)) ∧
    (createsTimer (exec notifyFails service sched).wf = true →
      outstanding (exec notifyFails service sched) = 0) ∧
    (createsTimer (exec notifyFails service sched).wf = false →
      armTimer (exec notifyFails service sched).wf = (exec notifyFails service sched).wf) ∧
    outstanding (exec notifyFails service sched) ≤ 1 ∧
    outstanding { exec notifyFails service sched with
      wf := armTimer (exec notifyFails service sched).wf } ≤ 1 ∧
    ((exec notifyFails service sched).addAlertChan ≠ [] →
      createsTimer (exec notifyFails service (sched ++ [Action.select])).wf = false) ∧
    ((exec notifyFails service sched).wf.state.Status ≠ IncidentStatus.StatusOpen →
      ∀ more : List Action,
        createsTimer (exec notifyFails service (sched ++ more)).wf = false ∧
        (exec notifyFails service (sched ++ more)).wf.timersStarted =
          (exec notifyFails service sched).wf.timersStarted) ∧
    (Action.arrive Event.timerCanceled ∉ sched →
      (createsTimer (exec notifyFails service sched).wf = true ↔
        ((exec notifyFails service sched).wf.state.Status = IncidentStatus.StatusOpen ∧
          outstanding (exec notifyFails service sched) = 0 ∧
          (exec notifyFails service sched).timerCallbacks =
            (exec notifyFails service sched).completions.length))) := by
  have hinv := exec_timerInv notifyFails service sched
  obtain ⟨t1, t2, t3, t4, t5⟩ := hinv
  generalize hrt : exec notifyFails service sched = rt at t1 t2 t3 t4 t5 ⊢
  refine ⟨createsTimer_iff _, ?_, createsTimer_false _, ?_, ?_, ?_, ?_, ?_⟩
  · intro hc
    have := t3 ((createsTimer_iff _).1 hc).2
    simp only [outstanding]; omega
  · simp only [outstanding]; omega
  · simp only [outstanding]
    by_cases hc : rt.wf.state.Status = IncidentStatus.StatusOpen ∧ rt.wf.needNewTimer = true
    · have := t3 hc.2
      simp only [armTimer, if_pos hc]; omega
    · simp only [armTimer, if_neg hc]; omega
  · intro hch
    rw [exec_append, hrt]
    exact selectStep_addAlert notifyFails rt ⟨t1, t2, t3, t4, t5⟩ hch
  · intro hno more
    rw [exec_append, hrt]
    have h := execFrom_not_open notifyFails rt more hno
    refine ⟨?_, h.2⟩
    cases hc : createsTimer (execFrom notifyFails rt more).wf
    · rfl
    · exact absurd ((createsTimer_iff _).1 hc).1 h.1
  · intro hs
    have hf : FireInv rt := by
      rw [← hrt]
      exact execFrom_fireInv notifyFails _ sched hs (boot_timerInv _ _) (boot_fireInv _ _)
    obtain ⟨f1, f2, f3, f4⟩ := hf
    rw [createsTimer_iff]
    simp only [outstanding]
    constructor
    · rintro ⟨ho, hn⟩
      have := f4.1 hn
      have := t3 hn
      exact ⟨ho, by omega, by omega⟩
    · rintro ⟨ho, h0, hcb⟩
      exact ⟨ho, f4.2 (by omega)⟩

/-- An escalation handled while OPEN, an instance of `C8_timer_arming`: the
first timer has fired and its callback has run, so the next top of the loop
creates the second timer. -/
theorem C8_timer_arming_witness :
    Action.arrive Event.timerCanceled ∉
      [Action.select, Action.arrive Event.timerFired, Action.select] ∧
    createsTimer (exec (fun _ => false) "db"
      [Action.select, Action.arrive Event.timerFired, Action.select]).wf = true ∧
    outstanding (exec (fun _ => false) "db"
      [Action.select, Action.arrive Event.timerFired, Action.select]) = 0 :=
  ⟨by decide,
    ((C8_timer_arming (fun _ => false) "db"
      [Action.select, Action.arrive Event.timerFired, Action.select]).2.2.2.2.2.2.2
        (by decide)).2 (by decide),
    (C8_timer_arming (fun _ => false) "db"
      [Action.select, Action.arrive Event.timerFired, Action.select]).2.1 (by decide)⟩

/-! ## C9: commands rejected by the starter -/

theorem fromStarter_hasRequiredField (service : String) (ev : Event)
    (h : FromStarter service ev) : hasRequiredField ev = true := by
  rcases h with h | h | ⟨c, svc, arg, call, hcall, hdel⟩
  · subst h; rfl
  · subst h; rfl
  · have hne1 : SignalAck ≠ SignalAddAlert := by decide
    have hne2 : SignalResolve ≠ SignalAddAlert := by decide
    have hne3 : SignalResolve ≠ SignalAck := by decide
    rcases hcall with hc | hc | hc
    · unfold sendAddAlert at hc
      split at hc
      · simp at hc
      · rename_i hok
        simp only [not_or] at hok
        have hcall : call = ⟨workflowID svc, "", SignalAddAlert, SignalArg.addAlert ⟨arg⟩⟩ := by
          cases hcl : c ⟨workflowID svc, "", SignalAddAlert, SignalArg.addAlert ⟨arg⟩⟩ <;>
            simpa [hcl] using hc
        subst hcall
        unfold deliver at hdel
        split at hdel
        · simp [SignalArg.alertID] at hdel
          subst hdel
          simpa [hasRequiredField] using hok.2
        · simp at hdel
    · unfold sendAck at hc
      split at hc
      · simp at hc
      · rename_i hok
        simp only [not_or] at hok
        have hcall : call = ⟨workflowID svc, "", SignalAck, SignalArg.ack ⟨arg⟩⟩ := by
          cases hcl : c ⟨workflowID svc, "", SignalAck, SignalArg.ack ⟨arg⟩⟩ <;>
            simpa [hcl] using hc
        subst hcall
        unfold deliver at hdel
        split at hdel
        · simp [SignalArg.responder, hne1] at hdel
          subst hdel
          simpa [hasRequiredField] using hok.2
        · simp at hdel
    · unfold sendResolve at hc
      split at hc
      · simp at hc
      · rename_i hok
        simp only [not_or] at hok
        have hcall : call = ⟨workflowID svc, "", SignalResolve, SignalArg.resolve ⟨arg⟩⟩ := by
          cases hcl : c ⟨workflowID svc, "", SignalResolve, SignalArg.resolve ⟨arg⟩⟩ <;>
            simpa [hcl] using hc
        subst hcall
        unfold deliver at hdel
        split at hdel
        · simp [SignalArg.responder, hne2, hne3] at hdel
          subst hdel
          simpa [hasRequiredField] using hok.2
        · simp at hdel

theorem nextState_noEmptyField (st : IncidentState) (ev : Event)
    (hev : hasRequiredField ev = true) (h : NoEmptyField st) : NoEmptyField (nextState st ev) := by
  rcases st with ⟨s1, status, al, lv, ab, rb⟩
  cases status <;> cases ev <;>
    simp_all [NoEmptyField, nextState, hasRequiredField] <;>
    exact fun hcon => hev hcon.symm

theorem stateLoop_noEmptyField (st : IncidentState) (es : List Event)
    (hes : ∀ ev ∈ es, hasRequiredField ev = true) (h : NoEmptyField st) :
    NoEmptyField (stateLoop st es) := by
  induction es generalizing st with
  | nil => simpa [stateLoop] using h
  | cons ev es ih =>
    simp only [List.mem_cons, forall_eq_or_imp] at hes
    by_cases hr : st.Status = IncidentStatus.StatusResolved
    · simpa [stateLoop, hr] using h
    · simp only [stateLoop, hr, if_false]
      exact ih _ hes.2 (nextState_noEmptyField st ev hes.1 h)

/-- C9: `sendAddAlert` with an empty alert id and `sendAck` or `sendResolve`
with an empty responder end in `log.Fatalln` without calling
`SignalWorkflow`; hence every signal the workflow receives from the starter
carries its required field, and no state reached through such signals and
timer events has an empty alert id among its alerts, an empty `AckedBy` when
ACKED or an empty `ResolvedBy` when RESOLVED. -/
theorem C9_invalid_command_rejected (signalWorkflow : SignalCall → Option String)
    (service : String) :
    ((sendAddAlert signalWorkflow service "").signalled = [] ∧
      (sendAddAlert signalWorkflow service "").fatal =
        some "Service name and alert ID are required for alert command") ∧
    ((sendAck signalWorkflow service "").signalled = [] ∧
      (sendAck signalWorkflow service "").fatal =
        some "Service name and responder are required for ack command") ∧
    ((sendResolve signalWorkflow service "").signalled = [] ∧
      (sendResolve signalWorkflow service "").fatal =
        some "Service name and responder are required for resolve command") ∧
    (∀ (notifyFails : Nat → Bool) (es : List Event), (∀ ev ∈ es, FromStarter service ev) →
      (∀ ev ∈ es, hasRequiredField ev = true) ∧
      "" ∉ (run notifyFails service es).state.Alerts ∧
      ((run notifyFails service es).state.Status = IncidentStatus.StatusAcked →
        (run notifyFails service es).state.AckedBy ≠ "") ∧
      ((run notifyFails service es).state.Status = IncidentStatus.StatusResolved →
        (run notifyFails service es).state.ResolvedBy ≠ "")) := by
  refine ⟨by simp [sendAddAlert], by simp [sendAck], by simp [sendResolve], ?_⟩
  intro notifyFails es hes
  have hreq : ∀ ev ∈ es, hasRequiredField ev = true :=
    fun ev hev => fromStarter_hasRequiredField service ev (hes ev hev)
  have h := stateLoop_noEmptyField (initialState service) es hreq
    (by simp [NoEmptyField, initialState])
  rw [← run_state notifyFails] at h
  exact ⟨hreq, h⟩

/-- Scenario A of the specification issued through the starter, an instance
of `C9_invalid_command_rejected`. -/
theorem C9_invalid_command_rejected_witness :
    (∀ ev ∈ [Event.addAlert { AlertID := "a1" }, Event.ack { Responder := "alice" },
      Event.timerFired, Event.resolve { Responder := "alice" }], FromStarter "payments" ev) ∧
    "" ∉ (run (fun _ => false) "payments" [Event.addAlert { AlertID := "a1" },
      Event.ack { Responder := "alice" }, Event.timerFired,
      Event.resolve { Responder := "alice" }]).state.Alerts :=
  have hes : ∀ ev ∈ [Event.addAlert { AlertID := "a1" }, Event.ack { Responder := "alice" },
      Event.timerFired, Event.resolve { Responder := "alice" }], FromStarter "payments" ev := by
    intro ev hev
    simp only [List.mem_cons, List.mem_singleton, List.not_mem_nil, or_false] at hev
    rcases hev with h | h | h | h
    · subst h
      exact Or.inr (Or.inr ⟨fun _ => none, "payments", "a1",
        ⟨workflowID "payments", "", SignalAddAlert, SignalArg.addAlert ⟨"a1"⟩⟩,
        Or.inl (by decide), by decide⟩)
    · subst h
      exact Or.inr (Or.inr ⟨fun _ => none, "payments", "alice",
        ⟨workflowID "payments", "", SignalAck, SignalArg.ack ⟨"alice"⟩⟩,
        Or.inr (Or.inl (by decide)), by decide⟩)
    · subst h
      exact Or.inl rfl
    · subst h
      exact Or.inr (Or.inr ⟨fun _ => none, "payments", "alice",
        ⟨workflowID "payments", "", SignalResolve, SignalArg.resolve ⟨"alice"⟩⟩,
        Or.inr (Or.inr (by decide)), by decide⟩)
  ⟨hes, ((C9_invalid_command_rejected (fun _ => none) "payments").2.2.2
    (fun _ => false) _ hes).2.1⟩

/-! ## C10: stale timers -/

theorem timerRegistered_open (wf : Workflow) (h : timerRegistered wf = true) :
    wf.state.Status = IncidentStatus.StatusOpen := by
  simp [timerRegistered] at h
  exact h.1

theorem loopBody_timer_not_open (nf : Nat → Bool) (wf : Workflow) (ev : Event)
    (hev : ev = Event.timerFired ∨ ev = Event.timerCanceled)
    (h : wf.state.Status ≠ IncidentStatus.StatusOpen) :
    loopBody nf wf ev = wf := by
  rcases hev with hev | hev <;> subst hev <;>
    simp [loopBody, select, timerReady, timerRegistered, armTimer_not_open _ h, h]

/-- C10 as stated fails: there is no run, hence none in which a timer was
pending at an Ack or Resolve, after which the timer callback is on the
selector while the status is not OPEN; `Select` therefore never invokes it
with a status other than OPEN. -/
theorem C10_counterexample :
    ¬ ∃ (notifyFails : Nat → Bool) (service : String) (es : List Event),
      (run notifyFails service es).state.Status ≠ IncidentStatus.StatusOpen ∧
      timerRegistered (armTimer (run notifyFails service es)) = true := by
  rintro ⟨nf, service, es, hno, hreg⟩
  exact hno (by simpa [armTimer_state] using timerRegistered_open _ hreg)

/-- C10, amended: stale timer firings are filtered at registration rather than
cancelled or delivered.  Once the status has left OPEN the timer callback is
not on the selector, so the completion of a timer that was pending at the Ack
or Resolve invokes no callback: the state, the notifications, `needNewTimer`,
the timer future and the number of timers created stay as they are; the
callback only ever runs with status OPEN, so its status guard is never
taken. -/
theorem C10_stale_timer_not_delivered (notifyFails : Nat → Bool) (service : String)
    (es : List Event) (ev : Event)
    (hev : ev = Event.timerFired ∨ ev = Event.timerCanceled)
    (hstale : (run notifyFails service es).state.Status ≠ IncidentStatus.StatusOpen) :
    timerRegistered (armTimer (run notifyFails service es)) = false ∧
    (run notifyFails service (es ++ [ev])).state = (run notifyFails service es).state ∧
    (run notifyFails service (es ++ [ev])).activities =
      (run notifyFails service es).activities ∧
    (run notifyFails service (es ++ [ev])).needNewTimer =
      (run notifyFails service es).needNewTimer ∧
    (run notifyFails service (es ++ [ev])).timerFuture =
      (run notifyFails service es).timerFuture ∧
    (run notifyFails service (es ++ [ev])).timersStarted =
      (run notifyFails service es).timersStarted ∧
    (∀ wf : Workflow, timerRegistered wf = true →
      wf.state.Status = IncidentStatus.StatusOpen) := by
  have hreg : timerRegistered (armTimer (run notifyFails service es)) = false := by
    simp [timerRegistered, armTimer_state, hstale]
  refine ⟨hreg, ?_⟩
  rw [run_append, eventLoop_single]
  split
  · simpa using timerRegistered_open
  · rw [loopBody_timer_not_open _ _ _ hev hstale]
    simpa using timerRegistered_open

/-- Scenario C followed by the firing of the timer that was pending at the
Ack, from `C10_stale_timer_not_delivered`. -/
theorem C10_stale_timer_not_delivered_witness :
    (Event.timerFired = Event.timerFired ∨ Event.timerFired = Event.timerCanceled) ∧
    (run (fun _ => false) "db" [Event.ack { Responder := "carol" }]).state.Status ≠
      IncidentStatus.StatusOpen ∧
    (run (fun _ => false) "db" [Event.ack { Responder := "carol" }]).timerFuture = some 0 ∧
    (run (fun _ => false) "db" ([Event.ack { Responder := "carol" }] ++ [Event.timerFired])).state =
      (run (fun _ => false) "db" [Event.ack { Responder := "carol" }]).state :=
  ⟨Or.inl rfl, by decide, by decide,
    (C10_stale_timer_not_delivered (fun _ => false) "db" [Event.ack { Responder := "carol" }]
      Event.timerFired (Or.inl rfl) (by decide)).2.1⟩

end Incident
